import Mathlib

/-!
Verification development for the plotlyDash repository.

`data_gen.py` generates two tabular datasets (products, monthly sales by state)
from random draws; `viz.py` loads them (or embedded fallback rows), derives
aggregate views and KPI scalars, and assembles a dashboard.

Randomness is embedded as explicit streams: every `np.random.uniform(a, b)`
draw is `uniform a b (u k)` for a stream `u : ℕ → UnitQ` of values in `[0, 1]`,
and every `np.random.choice` index draw comes from a stream `pick : ℕ → ℕ`.
Fixing the module-level seed (`np.random.seed(42)`) corresponds to fixing the
streams.  Python's `round(x, 2)` is `round2` (round to nearest multiple of
1/100); all numerics are exact rationals.
-/

/-- A value in the unit interval `[0, 1]`: the normalized output of one draw of
numpy's uniform generator. -/
def UnitQ : Type := {q : ℚ // 0 ≤ q ∧ q ≤ 1}

/-- `np.random.uniform(a, b)` realized from a unit draw `u`: `a + (b - a) * u`. -/
def uniform (a b : ℚ) (u : UnitQ) : ℚ := a + (b - a) * u.1

/-- Python's `round(x, 2)`: round to the nearest multiple of `1/100`. -/
def round2 (q : ℚ) : ℚ := (round (100 * q) : ℤ) / 100

/-- Python's `int()` conversion: truncation toward zero. -/
def truncToward0 (q : ℚ) : ℤ := if 0 ≤ q then ⌊q⌋ else -⌊-q⌋

/-- `np.random.choice(l)` realized from an index draw `i`: the element at
position `i mod l.length` (default `d` when the list is empty). -/
def listChoice {α : Type} (l : List α) (d : α) (i : ℕ) : α :=
  l.getD (i % l.length) d

/-- Python dict access `d[k]` on an association list (empty list if absent). -/
def dictGet (d : List (String × List String)) (k : String) : List String :=
  (d.lookup k).getD []

/-- Python's `str.zfill(w)`: left-pad with `'0'` to width `w`. -/
def zfill (s : String) (w : ℕ) : String :=
  String.mk (List.replicate (w - s.length) '0') ++ s

/-! ## data_gen.py: constants -/

/-- `PRODUCT_CATEGORIES` from `data_gen.py` (a Python dict, insertion-ordered). -/
def PRODUCT_CATEGORIES : List (String × List String) :=
  [("Electronics", ["Smartphones", "Laptops", "Tablets", "Headphones", "Smartwatches"]),
   ("Furniture", ["Chairs", "Tables", "Sofas", "Desks", "Cabinets"]),
   ("Clothing", ["Shirts", "Pants", "Dresses", "Jackets", "Shoes"]),
   ("Home Appliances", ["Refrigerators", "Washing Machines", "Microwaves", "Blenders", "Toasters"]),
   ("Sports", ["Bicycles", "Treadmills", "Dumbbells", "Yoga Mats", "Sportswear"])]

/-- `STATES_USA` from `data_gen.py`. -/
def STATES_USA : List String :=
  ["Alabama", "Alaska", "Arizona", "Arkansas", "California", "Colorado", "Connecticut",
   "Delaware", "Florida", "Georgia", "Hawaii", "Idaho", "Illinois", "Indiana", "Iowa",
   "Kansas", "Kentucky", "Louisiana", "Maine", "Maryland", "Massachusetts", "Michigan",
   "Minnesota", "Mississippi", "Missouri", "Montana", "Nebraska", "Nevada", "New Hampshire",
   "New Jersey", "New Mexico", "New York", "North Carolina", "North Dakota", "Ohio", "Oklahoma",
   "Oregon", "Pennsylvania", "Rhode Island", "South Carolina", "South Dakota", "Tennessee",
   "Texas", "Utah", "Vermont", "Virginia", "Washington", "West Virginia", "Wisconsin", "Wyoming"]

/-! ## data_gen.py: generate_product_data -/

/-- One row of the product table (`product_id, category, sub_category, value`). -/
structure ProductRow where
  product_id : String
  category : String
  sub_category : String
  value : ℚ
deriving DecidableEq, Inhabited

/-- The category-dependent value draw of `generate_product_data`
(`np.random.uniform` range depends on the category; the final `else` branch
is Sports). -/
def product_value (category : String) (u : UnitQ) : ℚ :=
  if category = "Electronics" then round2 (uniform 100 2000 u)
  else if category = "Furniture" then round2 (uniform 50 1500 u)
  else if category = "Clothing" then round2 (uniform 10 200 u)
  else if category = "Home Appliances" then round2 (uniform 80 2500 u)
  else round2 (uniform 30 1200 u)

/-- `generate_product_data(num_products)`: for each `i`, the category is a
choice among the dict keys, the sub-category a choice among that category's
list, the value a category-dependent uniform draw rounded to 2 decimals.
The category/sub-category loop consumes choice draws `pick (2*i)`,
`pick (2*i+1)`; the value loop consumes uniform draws `u i`. -/
def generate_product_data (num_products : ℕ) (pick : ℕ → ℕ) (u : ℕ → UnitQ) :
    List ProductRow :=
  (List.range num_products).map (fun i =>
    let category := listChoice (PRODUCT_CATEGORIES.map Prod.fst) "" (pick (2 * i))
    let sub_category := listChoice (dictGet PRODUCT_CATEGORIES category) "" (pick (2 * i + 1))
    { product_id := "P" ++ zfill (toString (i + 1)) 3
      category := category
      sub_category := sub_category
      value := product_value category (u i) })

/-! ## data_gen.py: generate_sales_summary -/

/-- One row of the sales summary table. -/
structure SalesRow where
  month : ℕ
  year : ℕ
  total_cost : ℚ
  total_discount : ℚ
  order_avg : ℚ
  units_sales : ℤ
  profit_margin : ℚ
  total_sales : ℚ
  state_usa : String
  percentage_promo : ℚ
  percentage_non_promo : ℚ
deriving DecidableEq, Inhabited

/-- The body of the month/state loop of `generate_sales_summary`.  `season` is
the month's seasonality factor (the source computes
`1 + 0.2 * sin((month - 1) * pi / 6)`, an irrational real; it is threaded in as
a parameter since it only scales the cost base).  The six uniform draws of one
row are `u 0 .. u 5` in source order; the promotional percentages are filled in
afterwards (`setPromo`). -/
def mkSalesRow (year month : ℕ) (state : String) (season : ℚ) (u : ℕ → UnitQ) :
    SalesRow :=
  let base_sales := uniform 50000 200000 (u 0)
  let total_cost := round2 (base_sales * uniform (1/2) (4/5) (u 1) * season)
  let total_discount := round2 (total_cost * uniform (1/100) (15/100) (u 2))
  let order_avg := round2 (uniform 50 300 (u 3))
  let units := truncToward0 (base_sales * uniform (1/2) 2 (u 4) / order_avg)
  let profit_margin := round2 (uniform (1/10) (2/5) (u 5))
  let sales := round2 (total_cost / (1 - profit_margin))
  { month := month
    year := year
    total_cost := total_cost
    total_discount := total_discount
    order_avg := order_avg
    units_sales := units
    profit_margin := profit_margin
    total_sales := sales
    state_usa := state
    percentage_promo := 0
    percentage_non_promo := 0 }

/-- The post-loop promotional split of `generate_sales_summary`:
`promo_percent[j] = round(uniform(0.2, 0.6), 2)` and
`non_promo_percent[j] = round(1 - promo_percent[j], 2)`. -/
def setPromo (r : SalesRow) (u : UnitQ) : SalesRow :=
  let p := round2 (uniform (1/5) (3/5) u)
  { r with percentage_promo := p, percentage_non_promo := round2 (1 - p) }

/-- Attach the `j`-indexed promotional draws to each row in order. -/
def attachPromo (u : ℕ → UnitQ) : ℕ → List SalesRow → List SalesRow
  | _, [] => []
  | j, r :: rs => setPromo r (u j) :: attachPromo u (j + 1) rs

/-- `np.random.choice(pool, size=k, replace=False)`: repeatedly pick an index
into the remaining pool and remove the chosen element. -/
def sampleNoReplace (pool : List String) (k : ℕ) (pick : ℕ → ℕ) (t : ℕ) :
    List String :=
  match k with
  | 0 => []
  | Nat.succ m =>
    let i := pick t % pool.length
    pool.getD i "" :: sampleNoReplace (pool.eraseIdx i) m pick (t + 1)

/-- `generate_sales_summary(year, num_months, num_states)`: select
`num_states` states without replacement, build one row per (month, state) pair
(months outer, states inner), append the promotional split, and return
`df.head(100) if len(df) >= 100 else df`, i.e. the first 100 rows.  Row
`(mi, si)` consumes the six uniform draws starting at `6 * (mi * num_states + si)`;
the promotional draws follow at offset `6 * num_months * num_states`. -/
def generate_sales_summary (year num_months num_states : ℕ) (pick : ℕ → ℕ)
    (season : ℕ → ℚ) (u : ℕ → UnitQ) : List SalesRow :=
  let selected := sampleNoReplace STATES_USA num_states pick 0
  let rows := ((List.range num_months).map (fun mi =>
    (List.range num_states).map (fun si =>
      mkSalesRow year (mi + 1) (selected.getD si "") (season (mi + 1))
        (fun k => u (6 * (mi * num_states + si) + k))))).flatten
  (attachPromo (fun j => u (6 * (num_months * num_states) + j)) 0 rows).take 100

/-! ## data_gen.py: save_datasets -/

/-- The observable effect of `save_datasets`: the two paths written to and
whether the output directory was created (the `mkdir` line is commented out in
the source). -/
structure SaveEffect where
  products_path : String
  sales_path : String
  mkdir_called : Bool
deriving DecidableEq

/-- `save_datasets(products_df, sales_df, output_dir='data')`: the body sets
`output_path = '../data'` without consulting `output_dir`, builds the two CSV
paths by concatenation, and never creates the directory. -/
def save_datasets (output_dir : String) : SaveEffect :=
  let output_path := "../data"
  { products_path := output_path ++ "/products.csv"
    sales_path := output_path ++ "/sales_summary.csv"
    mkdir_called := false }

/-! ## viz.py: input tables -/

/-- A product row as `viz.py` consumes it (the treemap uses only
`category`, `sub_category`, `value`; the fallback literal has no id column). -/
structure PTriple where
  category : String
  sub_category : String
  value : ℚ
deriving DecidableEq

/-- A sales row as `viz.py` consumes it: exactly the nine columns the
dashboard touches (the fallback literal provides these and no others). -/
structure VizSalesRow where
  state_usa : String
  total_sales : ℚ
  order_avg : ℚ
  total_cost : ℚ
  total_discount : ℚ
  units_sales : ℚ
  percentage_promo : ℚ
  year : ℕ
  month : ℕ
deriving DecidableEq

/-- The embedded fallback product rows of `viz.py` (`product_data` literal). -/
def sample_product_data : List PTriple :=
  [⟨"Electronics", "Laptops", 1500⟩, ⟨"Electronics", "Smartphones", 1200⟩,
   ⟨"Furniture", "Chairs", 300⟩, ⟨"Furniture", "Tables", 500⟩,
   ⟨"Home Appliances", "Refrigerators", 800⟩, ⟨"Home Appliances", "Microwaves", 200⟩,
   ⟨"Sports", "Bicycles", 600⟩, ⟨"Clothing", "Shirts", 150⟩]

/-- The embedded fallback sales rows of `viz.py` (`sales_data` literal,
column-wise in the source; row-wise here). -/
def sample_sales_data : List VizSalesRow :=
  [⟨"California", 125000, 150, 80000, 12000, 800, 1/10, 2023, 10⟩,
   ⟨"Texas", 180000, 160, 110000, 15000, 1100, 15/100, 2023, 11⟩,
   ⟨"Florida", 150000, 155, 95000, 13000, 950, 12/100, 2023, 12⟩,
   ⟨"New York", 140000, 170, 90000, 14000, 850, 1/5, 2024, 1⟩,
   ⟨"Pennsylvania", 90000, 145, 60000, 9000, 600, 8/100, 2024, 2⟩,
   ⟨"Illinois", 110000, 150, 70000, 11000, 720, 1/10, 2024, 3⟩,
   ⟨"Ohio", 85000, 140, 55000, 8000, 600, 11/100, 2024, 4⟩,
   ⟨"Georgia", 95000, 148, 65000, 9000, 650, 13/100, 2024, 5⟩,
   ⟨"North Carolina", 78000, 130, 50000, 7000, 580, 9/100, 2024, 6⟩,
   ⟨"Michigan", 70000, 135, 48000, 6000, 500, 7/100, 2024, 7⟩]

/-- The products `try/except FileNotFoundError` block of `create_dashboard`:
a present file yields its table, a missing file yields the embedded sample
rows.  The boolean records whether the warning was printed. -/
def load_products (file : Option (List PTriple)) : List PTriple × Bool :=
  match file with
  | some df => (df, false)
  | none => (sample_product_data, true)

/-- The sales `try/except FileNotFoundError` block of `create_dashboard`. -/
def load_sales (file : Option (List VizSalesRow)) : List VizSalesRow × Bool :=
  match file with
  | some df => (df, false)
  | none => (sample_sales_data, true)

/-! ## viz.py: aggregate views and KPIs -/

/-- `df_geo = df_sales.groupby('state_usa')['total_sales'].sum().reset_index()`:
one `(state, total)` pair per distinct state, the total being the sum of
`total_sales` over the rows with that state. -/
def df_geo (rows : List VizSalesRow) : List (String × ℚ) :=
  ((rows.map VizSalesRow.state_usa).dedup).map (fun s =>
    (s, ((rows.filter (fun r => r.state_usa = s)).map VizSalesRow.total_sales).sum))

/-- `df_sales['order_count_est'] = df_sales['total_sales'] / df_sales['order_avg']`
(pandas element-wise float division). -/
def order_count_est (r : VizSalesRow) : ℚ := r.total_sales / r.order_avg

/-- `total_order_count = df_sales['order_count_est'].sum()`. -/
def total_order_count (rows : List VizSalesRow) : ℚ :=
  (rows.map order_count_est).sum

/-- `total_revenue = df_sales['total_sales'].sum()`. -/
def total_revenue (rows : List VizSalesRow) : ℚ :=
  (rows.map VizSalesRow.total_sales).sum

/-- `total_cost = df_sales['total_cost'].sum()`. -/
def total_cost_kpi (rows : List VizSalesRow) : ℚ :=
  (rows.map VizSalesRow.total_cost).sum

/-- `total_profit = total_revenue - total_cost`. -/
def total_profit (rows : List VizSalesRow) : ℚ :=
  total_revenue rows - total_cost_kpi rows

/-- Division that fails (returns `none`) on a zero divisor: the failure the
spec attributes to the KPI computations. -/
def divOpt (a b : ℚ) : Option ℚ := if b = 0 then none else some (a / b)

/-- `profit_margin = total_profit / total_revenue if total_revenue else 0`:
the division is attempted only when `total_revenue` is nonzero; a zero
total yields the literal `0`. -/
def profit_margin_kpi (rows : List VizSalesRow) : Option ℚ :=
  if total_revenue rows ≠ 0 then divOpt (total_profit rows) (total_revenue rows)
  else some 0

/-- `avg_order_value = total_revenue / total_order_count if total_order_count else 0`. -/
def avg_order_value_kpi (rows : List VizSalesRow) : Option ℚ :=
  if total_order_count rows ≠ 0 then divOpt (total_revenue rows) (total_order_count rows)
  else some 0

/-! ## viz.py: treemap aggregation

`px.treemap(df_products, path=['category', 'sub_category'], values='value')`
aggregates hierarchically: the node of a sub-category under a category sums
the `value` of the matching rows; the category node's value is the sum of its
child nodes; `percentParent` of a child is its value over its parent's value
(rendered as a percentage). -/

/-- Value of the treemap leaf `category / sub_category`: sum of `value` over
the rows of that category, then of that sub-category. -/
def treemap_child_value (rows : List PTriple) (c sc : String) : ℚ :=
  (((rows.filter (fun r => r.category = c)).filter
      (fun r => r.sub_category = sc)).map PTriple.value).sum

/-- Value of the treemap category node: sum of its children's values. -/
def treemap_parent_value (rows : List PTriple) (c : String) : ℚ :=
  ((((rows.filter (fun r => r.category = c)).map PTriple.sub_category).dedup).map
    (treemap_child_value rows c)).sum

/-- The treemap's parent-share percentage of a sub-category node. -/
def treemap_percent_parent (rows : List PTriple) (c sc : String) : ℚ :=
  treemap_child_value rows c sc / treemap_parent_value rows c * 100

/-- The spec's formula `subcat_total`: sum of `value` over rows with the given
(category, sub_category) pair. -/
def spec_subcat_total (rows : List PTriple) (c sc : String) : ℚ :=
  ((rows.filter (fun r => r.category = c ∧ r.sub_category = sc)).map
    PTriple.value).sum

/-- The spec's formula `category_total`: sum of `value` over rows with the
given category. -/
def spec_category_total (rows : List PTriple) (c : String) : ℚ :=
  ((rows.filter (fun r => r.category = c)).map PTriple.value).sum

/-- The `.1%`-style display rounding applied by the treemap text template:
one decimal place. -/
def round1 (q : ℚ) : ℚ := (round (10 * q) : ℤ) / 10

/-! ## Concrete inputs used to instantiate the theorems -/

/-- A constant choice stream. -/
def pick0 : ℕ → ℕ := fun _ => 0

/-- A constant unit-interval stream. -/
def u0 : ℕ → UnitQ := fun _ => ⟨1/2, by norm_num⟩

/-- A constant seasonality factor. -/
def season0 : ℕ → ℚ := fun _ => 1

/-- A sales table whose total revenue and estimated order count are both zero
(one row with `total_sales = 0`). -/
def zeroSalesTable : List VizSalesRow :=
  [⟨"California", 0, 1, 5, 0, 0, 0, 2023, 1⟩]

/-- A one-month, one-state sales run on the constant streams. -/
def w_sales_table : List SalesRow := generate_sales_summary 2023 1 1 pick0 season0 u0

/-- Its first row. -/
def w_sales_row : SalesRow := w_sales_table.headI

/-- A one-product run on the constant streams. -/
def w_product_table : List ProductRow := generate_product_data 1 pick0 u0

/-- Its first row. -/
def w_product_row : ProductRow := w_product_table.headI


/-! ## Helper lemmas: rounding and uniform draws -/

theorem round2_le_round2 {a b : ℚ} (h : a ≤ b) : round2 a ≤ round2 b := by
  unfold round2
  have hr : round (100 * a) ≤ round (100 * b) := by
    rw [round_eq, round_eq]; exact Int.floor_le_floor (by linarith)
  have h2 : ((round (100 * a) : ℤ) : ℚ) ≤ ((round (100 * b) : ℤ) : ℚ) := by
    exact_mod_cast hr
  linarith

theorem round2_int_div (k : ℤ) : round2 ((k : ℚ) / 100) = (k : ℚ) / 100 := by
  unfold round2
  rw [show (100 : ℚ) * ((k : ℚ) / 100) = (k : ℚ) by ring, round_intCast]

theorem abs_round2_sub (q : ℚ) : |round2 q - q| ≤ 1 / 200 := by
  unfold round2
  have h := abs_sub_round (100 * q)
  rw [abs_sub_comm] at h
  have heq : (round (100 * q) : ℚ) / 100 - q = ((round (100 * q) : ℚ) - 100 * q) / 100 := by
    ring
  rw [heq, abs_div, abs_of_pos (show (0:ℚ) < 100 by norm_num)]
  linarith

theorem uniform_le {a b : ℚ} (h : a ≤ b) (u : UnitQ) : uniform a b u ≤ b := by
  unfold uniform
  nlinarith [u.2.1, u.2.2]

theorem le_uniform {a b : ℚ} (h : a ≤ b) (u : UnitQ) : a ≤ uniform a b u := by
  unfold uniform
  nlinarith [u.2.1, u.2.2]

theorem round2_one_sub_round2 (x : ℚ) : round2 (1 - round2 x) = 1 - round2 x := by
  have h : 1 - round2 x = ((100 - round (100 * x) : ℤ) : ℚ) / 100 := by
    unfold round2; push_cast; ring
  rw [h, round2_int_div]

theorem round2_tenth : round2 (1/10) = 1/10 := by
  have h := round2_int_div 10
  norm_num at h
  exact h

theorem round2_two_fifths : round2 (2/5) = 2/5 := by
  have h := round2_int_div 40
  norm_num at h
  exact h

theorem round2_fifth : round2 (1/5) = 1/5 := by
  have h := round2_int_div 20
  norm_num at h
  exact h

theorem round2_three_fifths : round2 (3/5) = 3/5 := by
  have h := round2_int_div 60
  norm_num at h
  exact h

theorem listChoice_mem {α : Type} (l : List α) (d : α) (i : ℕ) (h : l ≠ []) :
    listChoice l d i ∈ l := by
  unfold listChoice
  have hlen : 0 < l.length := List.length_pos.mpr h
  have hlt : i % l.length < l.length := Nat.mod_lt _ hlen
  rw [List.getD_eq_getElem l d hlt]
  exact List.getElem_mem hlt

theorem headI_mem {α : Type} [Inhabited α] {l : List α} (h : l ≠ []) :
    l.headI ∈ l := by
  cases l with
  | nil => simp at h
  | cons a t => simp [List.headI]

/-! ## Helper lemmas: summing over groupby fibers -/

theorem sum_map_ite_eq {β : Type} [DecidableEq β] (ks : List β) (hnd : ks.Nodup)
    (c : β) (hc : c ∈ ks) (x : ℚ) :
    (ks.map (fun b => if c = b then x else 0)).sum = x := by
  induction ks with
  | nil => simp at hc
  | cons k t ih =>
    rcases List.mem_cons.mp hc with h | h
    · subst h
      have hnot : c ∉ t := (List.nodup_cons.mp hnd).1
      have hz : (t.map (fun b => if c = b then x else 0)).sum = 0 := by
        apply List.sum_eq_zero
        intro y hy
        rcases List.mem_map.mp hy with ⟨b, hb, rfl⟩
        simp only [ite_eq_right_iff]
        intro hcb; exact absurd (hcb ▸ hb) hnot
      simp [hz]
    · have hk : c ≠ k := by
        rintro rfl; exact (List.nodup_cons.mp hnd).1 h
      have := ih (List.nodup_cons.mp hnd).2 h
      simp [hk, this]

/-- Summing a quantity fiberwise over a complete, duplicate-free list of keys
gives the total: the algebraic content of a pandas `groupby(...).sum()`. -/
theorem sum_fiberwise_list {α β : Type} [DecidableEq β] (l : List α) (key : α → β)
    (f : α → ℚ) (ks : List β) (hnd : ks.Nodup) (hcov : ∀ a ∈ l, key a ∈ ks) :
    (ks.map (fun b => ((l.filter (fun a => key a = b)).map f).sum)).sum
      = (l.map f).sum := by
  induction l with
  | nil => simp
  | cons a t ih =>
    have hcov' : ∀ x ∈ t, key x ∈ ks := fun x hx => hcov x (List.mem_cons_of_mem _ hx)
    have step : ∀ b : β, (((a :: t).filter (fun x => key x = b)).map f).sum
        = (if key a = b then f a else 0) + ((t.filter (fun x => key x = b)).map f).sum := by
      intro b
      by_cases h : key a = b
      · simp [List.filter_cons, h]
      · simp [List.filter_cons, h]
    calc (ks.map (fun b => (((a :: t).filter (fun x => key x = b)).map f).sum)).sum
        = (ks.map (fun b => (if key a = b then f a else 0)
            + ((t.filter (fun x => key x = b)).map f).sum)).sum := by
          congr 1; exact List.map_congr_left (fun b _ => step b)
      _ = (ks.map (fun b => if key a = b then f a else 0)).sum
            + (ks.map (fun b => ((t.filter (fun x => key x = b)).map f).sum)).sum := by
          rw [← List.sum_map_add]
      _ = f a + (t.map f).sum := by
          rw [sum_map_ite_eq ks hnd (key a) (hcov a (List.mem_cons_self a t)),
            ih hcov']
      _ = ((a :: t).map f).sum := by simp

/-! ## Helper lemmas: structure of the generated sales table -/

theorem mem_attachPromo {u : ℕ → UnitQ} {r : SalesRow} :
    ∀ {j : ℕ} {l : List SalesRow}, r ∈ attachPromo u j l →
      ∃ r' ∈ l, ∃ k, r = setPromo r' (u k) := by
  intro j l
  induction l generalizing j with
  | nil => intro h; simp [attachPromo] at h
  | cons a t ih =>
    intro h
    rcases List.mem_cons.mp h with h | h
    · exact ⟨a, List.mem_cons_self a t, j, h⟩
    · rcases ih h with ⟨r', hr', k, hk⟩
      exact ⟨r', List.mem_cons_of_mem _ hr', k, hk⟩

theorem map_month_attachPromo (u : ℕ → UnitQ) :
    ∀ (j : ℕ) (l : List SalesRow),
      (attachPromo u j l).map SalesRow.month = l.map SalesRow.month := by
  intro j l
  induction l generalizing j with
  | nil => rfl
  | cons a t ih => simp [attachPromo, setPromo, ih]

/-- Every row of the generated sales table is a loop-body row with the
promotional split attached. -/
theorem mem_generate_sales_summary {year num_months num_states : ℕ}
    {pick : ℕ → ℕ} {season : ℕ → ℚ} {u : ℕ → UnitQ} {r : SalesRow}
    (h : r ∈ generate_sales_summary year num_months num_states pick season u) :
    ∃ (month : ℕ) (state : String) (s : ℚ) (uf : ℕ → UnitQ) (pu : UnitQ),
      r = setPromo (mkSalesRow year month state s uf) pu := by
  unfold generate_sales_summary at h
  have h1 := List.take_subset 100 _ h
  rcases mem_attachPromo h1 with ⟨r', hr', k, hk⟩
  rcases List.mem_flatten.mp hr' with ⟨blk, hblk, hrblk⟩
  rcases List.mem_map.mp hblk with ⟨mi, _, rfl⟩
  rcases List.mem_map.mp hrblk with ⟨si, _, rfl⟩
  exact ⟨mi + 1, _, _, _, _, hk⟩

/-- The month column of the generated sales table: the first 100 entries of
`num_states` copies of each month in order. -/
theorem map_month_generate (year num_months num_states : ℕ) (pick : ℕ → ℕ)
    (season : ℕ → ℚ) (u : ℕ → UnitQ) :
    (generate_sales_summary year num_months num_states pick season u).map
        SalesRow.month
      = (((List.range num_months).map
          (fun mi => List.replicate num_states (mi + 1))).flatten).take 100 := by
  simp only [generate_sales_summary]
  rw [List.map_take]
  congr 1
  rw [map_month_attachPromo, List.map_flatten, List.map_map]
  congr 1
  refine List.map_congr_left (fun mi _ => ?_)
  simp only [Function.comp_apply, List.map_map]
  have hmm : ∀ si : ℕ, (SalesRow.month ∘ fun si =>
      mkSalesRow year (mi + 1)
        ((sampleNoReplace STATES_USA num_states pick 0).getD si "")
        (season (mi + 1)) (fun k => u (6 * (mi * num_states + si) + k))) si
      = mi + 1 := fun si => rfl
  rw [List.map_congr_left (fun si _ => hmm si)]
  simp [List.map_const]

theorem setPromo_profit_margin (r : SalesRow) (pu : UnitQ) :
    (setPromo r pu).profit_margin = r.profit_margin := rfl

theorem setPromo_total_cost (r : SalesRow) (pu : UnitQ) :
    (setPromo r pu).total_cost = r.total_cost := rfl

theorem setPromo_total_sales (r : SalesRow) (pu : UnitQ) :
    (setPromo r pu).total_sales = r.total_sales := rfl

theorem setPromo_percentage_promo (r : SalesRow) (pu : UnitQ) :
    (setPromo r pu).percentage_promo = round2 (uniform (1/5) (3/5) pu) := rfl

theorem setPromo_percentage_non_promo (r : SalesRow) (pu : UnitQ) :
    (setPromo r pu).percentage_non_promo
      = round2 (1 - round2 (uniform (1/5) (3/5) pu)) := rfl

theorem mkSalesRow_profit_margin (year month : ℕ) (state : String) (season : ℚ)
    (uf : ℕ → UnitQ) :
    (mkSalesRow year month state season uf).profit_margin
      = round2 (uniform (1/10) (2/5) (uf 5)) := rfl

theorem mkSalesRow_total_sales (year month : ℕ) (state : String) (season : ℚ)
    (uf : ℕ → UnitQ) :
    (mkSalesRow year month state season uf).total_sales
      = round2 ((mkSalesRow year month state season uf).total_cost
          / (1 - (mkSalesRow year month state season uf).profit_margin)) := rfl

/-! ## Claims -/

/-- C1: For every row produced by `generate_sales_summary`, the profit margin
is drawn from `[0.1, 0.4]` so the divisor `1 - profit_margin` is never zero,
and `total_sales` is exactly the 2-decimal rounding of
`total_cost / (1 - profit_margin)`, hence equals it within tolerance `1/200`. -/
theorem C1_total_sales_ratio (year num_months num_states : ℕ) (pick : ℕ → ℕ)
    (season : ℕ → ℚ) (u : ℕ → UnitQ) (r : SalesRow)
    (hr : r ∈ generate_sales_summary year num_months num_states pick season u) :
    (1/10 ≤ r.profit_margin ∧ r.profit_margin ≤ 2/5) ∧
    1 - r.profit_margin ≠ 0 ∧
    r.total_sales = round2 (r.total_cost / (1 - r.profit_margin)) ∧
    |r.total_sales - r.total_cost / (1 - r.profit_margin)| ≤ 1/200 := by
  rcases mem_generate_sales_summary hr with ⟨m, st, s, uf, pu, rfl⟩
  rw [setPromo_profit_margin, setPromo_total_cost, setPromo_total_sales,
    mkSalesRow_profit_margin, mkSalesRow_total_sales, mkSalesRow_profit_margin]
  have h1 : 1/10 ≤ round2 (uniform (1/10) (2/5) (uf 5)) := by
    have := round2_le_round2 (le_uniform (show (1:ℚ)/10 ≤ 2/5 by norm_num) (uf 5))
    rwa [round2_tenth] at this
  have h2 : round2 (uniform (1/10) (2/5) (uf 5)) ≤ 2/5 := by
    have := round2_le_round2 (uniform_le (show (1:ℚ)/10 ≤ 2/5 by norm_num) (uf 5))
    rwa [round2_two_fifths] at this
  have hne : 1 - round2 (uniform (1/10) (2/5) (uf 5)) ≠ 0 := by
    have : (0:ℚ) < 1 - round2 (uniform (1/10) (2/5) (uf 5)) := by linarith
    exact ne_of_gt this
  exact ⟨⟨h1, h2⟩, hne, rfl, abs_round2_sub _⟩

/-- C1 witness: the claim instantiated on the first row of a concrete run. -/
theorem C1_witness :
    (1/10 ≤ w_sales_row.profit_margin ∧ w_sales_row.profit_margin ≤ 2/5) ∧
    1 - w_sales_row.profit_margin ≠ 0 ∧
    w_sales_row.total_sales
      = round2 (w_sales_row.total_cost / (1 - w_sales_row.profit_margin)) ∧
    |w_sales_row.total_sales
      - w_sales_row.total_cost / (1 - w_sales_row.profit_margin)| ≤ 1/200 := by
  have hne : w_sales_table ≠ [] := by decide
  exact C1_total_sales_ratio 2023 1 1 pick0 season0 u0 w_sales_row (headI_mem hne)

/-- C2: For every row produced by `generate_sales_summary`, the promotional
split sums to exactly 1 (the 2-decimal rounding of `1 - percentage_promo` is
exact because `percentage_promo` already has 2 decimals), with
`percentage_promo` drawn from `[0.2, 0.6]`. -/
theorem C2_promo_split_sums_to_one (year num_months num_states : ℕ)
    (pick : ℕ → ℕ) (season : ℕ → ℚ) (u : ℕ → UnitQ) (r : SalesRow)
    (hr : r ∈ generate_sales_summary year num_months num_states pick season u) :
    r.percentage_promo + r.percentage_non_promo = 1 ∧
    (1/5 ≤ r.percentage_promo ∧ r.percentage_promo ≤ 3/5) ∧
    r.percentage_non_promo = round2 (1 - r.percentage_promo) := by
  rcases mem_generate_sales_summary hr with ⟨m, st, s, uf, pu, rfl⟩
  rw [setPromo_percentage_promo, setPromo_percentage_non_promo]
  have hq : round2 (1 - round2 (uniform (1/5) (3/5) pu))
      = 1 - round2 (uniform (1/5) (3/5) pu) := round2_one_sub_round2 _
  refine ⟨by rw [hq]; ring, ⟨?_, ?_⟩, rfl⟩
  · have := round2_le_round2 (le_uniform (show (1:ℚ)/5 ≤ 3/5 by norm_num) pu)
    rwa [round2_fifth] at this
  · have := round2_le_round2 (uniform_le (show (1:ℚ)/5 ≤ 3/5 by norm_num) pu)
    rwa [round2_three_fifths] at this

/-- C2 witness: the claim instantiated on the first row of a concrete run. -/
theorem C2_witness :
    w_sales_row.percentage_promo + w_sales_row.percentage_non_promo = 1 ∧
    (1/5 ≤ w_sales_row.percentage_promo ∧ w_sales_row.percentage_promo ≤ 3/5) ∧
    w_sales_row.percentage_non_promo
      = round2 (1 - w_sales_row.percentage_promo) := by
  have hne : w_sales_table ≠ [] := by decide
  exact C2_promo_split_sums_to_one 2023 1 1 pick0 season0 u0 w_sales_row
    (headI_mem hne)

/-- C3: every generated product's sub-category is a member of the list that
`PRODUCT_CATEGORIES` associates with the row's category. -/
theorem C3_sub_category_in_category_set (num_products : ℕ) (pick : ℕ → ℕ)
    (u : ℕ → UnitQ) (r : ProductRow)
    (hr : r ∈ generate_product_data num_products pick u) :
    r.sub_category ∈ dictGet PRODUCT_CATEGORIES r.category := by
  unfold generate_product_data at hr
  rcases List.mem_map.mp hr with ⟨i, _, rfl⟩
  have hkeys : (PRODUCT_CATEGORIES.map Prod.fst) ≠ [] := by decide
  have hcmem : listChoice (PRODUCT_CATEGORIES.map Prod.fst) "" (pick (2 * i))
      ∈ PRODUCT_CATEGORIES.map Prod.fst := listChoice_mem _ _ _ hkeys
  have hall : ∀ x ∈ PRODUCT_CATEGORIES.map Prod.fst,
      dictGet PRODUCT_CATEGORIES x ≠ [] := by decide
  exact listChoice_mem _ _ _ (hall _ hcmem)

/-- C3 witness: the claim instantiated on the first row of a concrete run. -/
theorem C3_witness :
    w_product_row.sub_category ∈ dictGet PRODUCT_CATEGORIES w_product_row.category := by
  have hne : w_product_table ≠ [] := by decide
  exact C3_sub_category_in_category_set 1 pick0 u0 w_product_row (headI_mem hne)

/-- C4 counterexample: on a table with zero total revenue and zero estimated
order count, the KPI computations of `create_dashboard` produce the value `0`
for both ratios instead of failing — the conditional expressions
(`... if total else 0`) guard the divisions, contradicting the claim that a
zero total makes the computation fail. -/
theorem C4_counterexample :
    total_revenue zeroSalesTable = 0 ∧ total_order_count zeroSalesTable = 0 ∧
    profit_margin_kpi zeroSalesTable = some 0 ∧
    avg_order_value_kpi zeroSalesTable = some 0 := by
  norm_num [total_revenue, total_order_count, order_count_est, profit_margin_kpi,
    avg_order_value_kpi, divOpt, zeroSalesTable]

/-- C4 (amended): the profit-margin and average-order-value calculations never
divide by zero: each is guarded by a conditional that substitutes `0` when the
respective total is zero, so they always produce a value. -/
theorem C4_kpi_division_guarded (rows : List VizSalesRow) :
    (profit_margin_kpi rows).isSome = true ∧
    (avg_order_value_kpi rows).isSome = true ∧
    (total_revenue rows = 0 → profit_margin_kpi rows = some 0) ∧
    (total_order_count rows = 0 → avg_order_value_kpi rows = some 0) := by
  refine ⟨?_, ?_, ?_, ?_⟩
  · by_cases h : total_revenue rows = 0 <;> simp [profit_margin_kpi, divOpt, h]
  · by_cases h : total_order_count rows = 0 <;>
      simp [avg_order_value_kpi, divOpt, h]
  · intro h; simp [profit_margin_kpi, h]
  · intro h; simp [avg_order_value_kpi, h]

/-- C4 witness: the amended claim instantiated on the zero-revenue table. -/
theorem C4_witness :
    profit_margin_kpi zeroSalesTable = some 0 ∧
    avg_order_value_kpi zeroSalesTable = some 0 :=
  ⟨(C4_kpi_division_guarded zeroSalesTable).2.2.1
    (by norm_num [total_revenue, zeroSalesTable]),
   (C4_kpi_division_guarded zeroSalesTable).2.2.2
    (by norm_num [total_order_count, order_count_est, zeroSalesTable])⟩

/-- C5: the per-state totals of the geo aggregate view sum to the grand total
of `total_sales` over the source table: the groupby partitions the rows. -/
theorem C5_geo_sum_preserved (rows : List VizSalesRow) :
    ((df_geo rows).map Prod.snd).sum = (rows.map VizSalesRow.total_sales).sum := by
  unfold df_geo
  rw [List.map_map]
  have hc : (Prod.snd ∘ fun s =>
        (s, ((rows.filter (fun r => r.state_usa = s)).map VizSalesRow.total_sales).sum))
      = fun s => ((rows.filter (fun r => r.state_usa = s)).map
          VizSalesRow.total_sales).sum := rfl
  rw [hc]
  exact sum_fiberwise_list rows VizSalesRow.state_usa VizSalesRow.total_sales _
    (List.nodup_dedup _) (fun a ha => List.mem_dedup.mpr (List.mem_map_of_mem _ ha))

/-- C6: a missing input CSV is replaced by the embedded sample rows (with the
warning printed), and a present file is used as-is — the fallback path returns
a table instead of crashing. -/
theorem C6_missing_file_fallback :
    load_products none = (sample_product_data, true) ∧
    load_sales none = (sample_sales_data, true) ∧
    (∀ dfP : List PTriple, load_products (some dfP) = (dfP, false)) ∧
    (∀ dfS : List VizSalesRow, load_sales (some dfS) = (dfS, false)) :=
  ⟨rfl, rfl, fun _ => rfl, fun _ => rfl⟩

/-! ## Treemap aggregation lemmas -/

theorem treemap_child_eq_spec (rows : List PTriple) (c sc : String) :
    treemap_child_value rows c sc = spec_subcat_total rows c sc := by
  unfold treemap_child_value spec_subcat_total
  rw [List.filter_filter]
  congr 1
  congr 1
  apply List.filter_congr
  intro a _
  by_cases h1 : a.category = c <;> by_cases h2 : a.sub_category = sc <;>
    simp [h1, h2]

theorem treemap_parent_eq_spec (rows : List PTriple) (c : String) :
    treemap_parent_value rows c = spec_category_total rows c := by
  unfold treemap_parent_value spec_category_total treemap_child_value
  exact sum_fiberwise_list (rows.filter (fun r => r.category = c))
    PTriple.sub_category PTriple.value _ (List.nodup_dedup _)
    (fun a ha => List.mem_dedup.mpr (List.mem_map_of_mem _ ha))

/-- C7: the treemap's parent-share percentage of a sub-category equals
`subcat_total / category_total * 100` (the hierarchical two-stage aggregation
agrees with the direct row totals), and on the embedded sample rows the
Laptops node inside Electronics carries `1500 / 2700 * 100 = 500/9 ≈ 55.6`,
displayed as `55.6` at one decimal. -/
theorem C7_treemap_percent_parent (rows : List PTriple) (c sc : String) :
    treemap_percent_parent rows c sc
      = spec_subcat_total rows c sc / spec_category_total rows c * 100 ∧
    treemap_percent_parent sample_product_data "Electronics" "Laptops" = 500/9 ∧
    round1 (treemap_percent_parent sample_product_data "Electronics" "Laptops")
      = 556/10 := by
  have hgen : ∀ (rs : List PTriple) (c' sc' : String),
      treemap_percent_parent rs c' sc'
        = spec_subcat_total rs c' sc' / spec_category_total rs c' * 100 := by
    intro rs c' sc'
    unfold treemap_percent_parent
    rw [treemap_child_eq_spec, treemap_parent_eq_spec]
  have hsub : spec_subcat_total sample_product_data "Electronics" "Laptops" = 1500 := by
    simp [spec_subcat_total, sample_product_data]
  have hcat : spec_category_total sample_product_data "Electronics" = 2700 := by
    simp [spec_category_total, sample_product_data]
    norm_num
  have hval : treemap_percent_parent sample_product_data "Electronics" "Laptops"
      = 500/9 := by
    rw [hgen, hsub, hcat]; norm_num
  refine ⟨hgen rows c sc, hval, ?_⟩
  rw [hval, round1, round_eq]
  norm_num

/-- C8: the generator run is deterministic modulo the seed: two runs whose
random streams agree pointwise (as runs under the same fixed
`np.random.seed(42)` do) produce identical product and sales tables. -/
theorem C8_deterministic (num_products year num_months num_states : ℕ)
    (pick pick' : ℕ → ℕ) (season season' : ℕ → ℚ) (u u' : ℕ → UnitQ)
    (hp : ∀ i, pick i = pick' i) (hs : ∀ m, season m = season' m)
    (hu : ∀ i, u i = u' i) :
    generate_product_data num_products pick u
      = generate_product_data num_products pick' u' ∧
    generate_sales_summary year num_months num_states pick season u
      = generate_sales_summary year num_months num_states pick' season' u' := by
  have h1 : pick = pick' := funext hp
  have h2 : season = season' := funext hs
  have h3 : u = u' := funext hu
  subst h1; subst h2; subst h3
  exact ⟨rfl, rfl⟩

/-- C8 witness: determinism instantiated on the constant streams. -/
theorem C8_witness :
    generate_product_data 1 pick0 u0 = generate_product_data 1 pick0 u0 ∧
    generate_sales_summary 2023 1 1 pick0 season0 u0
      = generate_sales_summary 2023 1 1 pick0 season0 u0 :=
  C8_deterministic 1 2023 1 1 pick0 pick0 season0 season0 u0 u0
    (fun _ => rfl) (fun _ => rfl) (fun _ => rfl)

/-- C9: `generate_sales_summary` returns at most 100 rows, and with the
defaults (12 months x 20 states = 240 generated rows) it returns exactly 100
rows whose months all lie in 1..5, every month 1..5 occurring — months 6..12
are cut off by `head(100)`. -/
theorem C9_head_100 (year : ℕ) (pick : ℕ → ℕ) (season : ℕ → ℚ) (u : ℕ → UnitQ) :
    (∀ num_months num_states : ℕ,
      (generate_sales_summary year num_months num_states pick season u).length
        ≤ 100) ∧
    (generate_sales_summary year 12 20 pick season u).length = 100 ∧
    (∀ r ∈ generate_sales_summary year 12 20 pick season u,
      1 ≤ r.month ∧ r.month ≤ 5) ∧
    (∀ m : ℕ, 1 ≤ m → m ≤ 5 →
      ∃ r ∈ generate_sales_summary year 12 20 pick season u, r.month = m) := by
  have hmap := map_month_generate year 12 20 pick season u
  refine ⟨?_, ?_, ?_, ?_⟩
  · intro num_months num_states
    simp only [generate_sales_summary]
    exact List.length_take_le 100 _
  · have := List.length_map (generate_sales_summary year 12 20 pick season u)
      SalesRow.month
    rw [hmap] at this
    rw [← this]
    decide
  · intro r hr
    have hmem : r.month
        ∈ (generate_sales_summary year 12 20 pick season u).map SalesRow.month :=
      List.mem_map_of_mem _ hr
    rw [hmap] at hmem
    have hall : ∀ x ∈ (((List.range 12).map
        (fun mi => List.replicate 20 (mi + 1))).flatten).take 100,
        1 ≤ x ∧ x ≤ 5 := by decide
    exact hall _ hmem
  · intro m h1 h5
    have hm : m ∈ (((List.range 12).map
        (fun mi => List.replicate 20 (mi + 1))).flatten).take 100 := by
      interval_cases m <;> decide
    rw [← hmap] at hm
    rcases List.mem_map.mp hm with ⟨r, hr, hrm⟩
    exact ⟨r, hr, hrm⟩

/-- C9 witness: a row with month 3 exists in a concrete default-parameter run. -/
theorem C9_witness :
    ∃ r ∈ generate_sales_summary 2023 12 20 pick0 season0 u0, r.month = 3 :=
  (C9_head_100 2023 pick0 season0 u0).2.2.2 3 (by norm_num) (by norm_num)

/-- C10: `save_datasets` ignores its `output_dir` parameter: every call writes
to the fixed relative paths `../data/products.csv` and
`../data/sales_summary.csv` and never creates the directory (the `mkdir` line
is commented out). -/
theorem C10_save_paths_fixed (output_dir : String) :
    save_datasets output_dir
      = { products_path := "../data/products.csv",
          sales_path := "../data/sales_summary.csv",
          mkdir_called := false } ∧
    (∀ d : String, save_datasets output_dir = save_datasets d) :=
  ⟨rfl, fun _ => rfl⟩
